import Mathlib

/-!
Verification of the gabagool arbitrage-bot core against its specification.

The Python sources are shallowly embedded over the rationals: every float
field becomes a rational number, every mutating method becomes a function
from the old state to the new state, and methods that both return a value
and read state return a pair.  Logging calls and timestamps are elided, as
are the human-readable formatted message strings (they are abstracted to
tags where a claim is about them).
-/

namespace Gabagool

/-- Embedding of position_tracker.Trade: record of a single trade.
The datetime timestamp is elided; cost is recomputed as quantity * price,
exactly as the dataclass does in its post-init hook. -/
structure Trade where
  side : String
  quantity : ℚ
  price : ℚ
  cost : ℚ
deriving DecidableEq

/-- Embedding of position_tracker.Position: holdings for one side. -/
structure Position where
  quantity : ℚ
  total_cost : ℚ
  trades : List Trade
deriving DecidableEq

/-- The dataclass defaults: quantity 0, total_cost 0, empty trade list. -/
def Position.init : Position := ⟨0, 0, []⟩

/-- Position.average_price: total_cost / quantity, 0 when quantity is 0. -/
def Position.average_price (p : Position) : ℚ :=
  if p.quantity = 0 then 0 else p.total_cost / p.quantity

/-- Position.add_trade: appends a trade and increments quantity and
total_cost.  The source builds the Trade with an empty side string and the
caller (add_yes_trade / add_no_trade) immediately overwrites it; here the
final side string is passed through directly.  The source performs no
validation of quantity or price. -/
def Position.add_trade (p : Position) (side : String) (quantity price : ℚ) : Position :=
  let trade : Trade := ⟨side, quantity, price, quantity * price⟩
  { quantity := p.quantity + quantity
    total_cost := p.total_cost + trade.cost
    trades := p.trades ++ [trade] }

/-- Embedding of position_tracker.PositionTracker. -/
structure PositionTracker where
  yes_position : Position
  no_position : Position
deriving DecidableEq

/-- Both positions start empty. -/
def PositionTracker.init : PositionTracker := ⟨Position.init, Position.init⟩

/-- PositionTracker.pair_cost: sum of the two average prices. -/
def PositionTracker.pair_cost (t : PositionTracker) : ℚ :=
  t.yes_position.average_price + t.no_position.average_price

/-- PositionTracker.total_cost: total spent on both sides. -/
def PositionTracker.total_cost (t : PositionTracker) : ℚ :=
  t.yes_position.total_cost + t.no_position.total_cost

/-- PositionTracker.min_quantity: hedged amount. -/
def PositionTracker.min_quantity (t : PositionTracker) : ℚ :=
  min t.yes_position.quantity t.no_position.quantity

/-- PositionTracker.quantity_imbalance: yes quantity minus no quantity. -/
def PositionTracker.quantity_imbalance (t : PositionTracker) : ℚ :=
  t.yes_position.quantity - t.no_position.quantity

/-- PositionTracker.balance_ratio: smaller over larger quantity, 0 when a
side is empty. -/
def PositionTracker.balance_ratio (t : PositionTracker) : ℚ :=
  if t.yes_position.quantity = 0 ∨ t.no_position.quantity = 0 then 0
  else min t.yes_position.quantity t.no_position.quantity /
    max t.yes_position.quantity t.no_position.quantity

/-- PositionTracker.locked_profit: 0 when min_quantity is 0, otherwise the
hedged payout (min_quantity dollars) minus the hedged cost
(avg_yes + avg_no) * min_quantity. -/
def PositionTracker.locked_profit (t : PositionTracker) : ℚ :=
  if t.min_quantity = 0 then 0
  else t.min_quantity -
    (t.yes_position.average_price + t.no_position.average_price) * t.min_quantity

/-- PositionTracker.add_yes_trade: records a YES purchase on the yes side.
The source also returns the appended Trade (recoverable as the last element
of the trades list) and logs; no validation is performed. -/
def PositionTracker.add_yes_trade (t : PositionTracker) (quantity price : ℚ) :
    PositionTracker :=
  { t with yes_position := t.yes_position.add_trade "YES" quantity price }

/-- PositionTracker.add_no_trade: records a NO purchase on the no side. -/
def PositionTracker.add_no_trade (t : PositionTracker) (quantity price : ℚ) :
    PositionTracker :=
  { t with no_position := t.no_position.add_trade "NO" quantity price }

/-- PositionTracker.simulate_yes_trade: computes the pair cost that a YES
fill would produce, returning the value together with the state the method
leaves behind (the body assigns no field, so the state component is the
receiver unchanged). -/
def PositionTracker.simulate_yes_trade (t : PositionTracker) (quantity price : ℚ) :
    ℚ × PositionTracker :=
  let new_qty := t.yes_position.quantity + quantity
  let new_cost := t.yes_position.total_cost + quantity * price
  let new_avg_yes := if 0 < new_qty then new_cost / new_qty else 0
  (new_avg_yes + t.no_position.average_price, t)

/-- PositionTracker.simulate_no_trade: mirror image of simulate_yes_trade. -/
def PositionTracker.simulate_no_trade (t : PositionTracker) (quantity price : ℚ) :
    ℚ × PositionTracker :=
  let new_qty := t.no_position.quantity + quantity
  let new_cost := t.no_position.total_cost + quantity * price
  let new_avg_no := if 0 < new_qty then new_cost / new_qty else 0
  (t.yes_position.average_price + new_avg_no, t)

/-- PositionTracker.reset: clears both positions. -/
def PositionTracker.reset (_t : PositionTracker) : PositionTracker :=
  PositionTracker.init

/-- Append on a bounded deque with capacity w (collections.deque with
maxlen=w): the new element goes to the right and, when the result would
exceed the capacity, the oldest elements are dropped from the left. -/
def dequeAppend (w : ℕ) (xs : List ℚ) (x : ℚ) : List ℚ :=
  if xs.length + 1 ≤ w then xs ++ [x]
  else (xs ++ [x]).drop (xs.length + 1 - w)

/-- Arithmetic mean of a list of rationals (statistics.mean). -/
def listMean (xs : List ℚ) : ℚ := xs.sum / (xs.length : ℚ)

/-- Sample variance with n - 1 denominator: the square of
statistics.stdev.  The source compares the standard deviation against a
threshold; over the rationals the square root is not available, so the
variance is kept and comparisons are squared (see volCheck). -/
def sampleVariance (xs : List ℚ) : ℚ :=
  (xs.map (fun x => (x - listMean xs) ^ 2)).sum / ((xs.length : ℚ) - 1)

/-- Exact rational encoding of the comparison sqrt varSq >= vt for
varSq >= 0: true iff vt <= 0 (the square root is nonnegative) or
vt ^ 2 <= varSq. -/
def volCheck (vt varSq : ℚ) : Bool :=
  decide (vt ≤ 0) || decide (vt ^ 2 ≤ varSq)

/-- Embedding of price_analyzer.PriceAnalyzer.  The three deques are kept
as lists (newest at the right); the three thresholds are instance
attributes initialised by the constructor. -/
structure PriceAnalyzer where
  window_size : ℕ
  yes_prices : List ℚ
  no_prices : List ℚ
  pair_costs : List ℚ
  cheap_threshold : ℚ
  volatility_threshold : ℚ
  max_pair_cost : ℚ
deriving DecidableEq

/-- The constructor: empty deques, cheap_threshold 0.15,
volatility_threshold 0.05, max_pair_cost 0.99. -/
def PriceAnalyzer.init (window_size : ℕ) : PriceAnalyzer :=
  ⟨window_size, [], [], [], 15/100, 5/100, 99/100⟩

/-- PriceAnalyzer.add_price: appends the observation to the yes, no and
pair-cost deques. -/
def PriceAnalyzer.add_price (a : PriceAnalyzer) (yes_price no_price : ℚ) :
    PriceAnalyzer :=
  { a with
    yes_prices := dequeAppend a.window_size a.yes_prices yes_price
    no_prices := dequeAppend a.window_size a.no_prices no_price
    pair_costs := dequeAppend a.window_size a.pair_costs (yes_price + no_price) }

/-- PriceAnalyzer.yes_average: mean of the yes samples, 0.5 when empty. -/
def PriceAnalyzer.yes_average (a : PriceAnalyzer) : ℚ :=
  if a.yes_prices = [] then 1/2 else listMean a.yes_prices

/-- PriceAnalyzer.no_average: mean of the no samples, 0.5 when empty. -/
def PriceAnalyzer.no_average (a : PriceAnalyzer) : ℚ :=
  if a.no_prices = [] then 1/2 else listMean a.no_prices

/-- Square of PriceAnalyzer.yes_volatility: 0 with fewer than 2 samples,
otherwise the sample variance of the yes deque. -/
def PriceAnalyzer.yes_volatility_sq (a : PriceAnalyzer) : ℚ :=
  if a.yes_prices.length < 2 then 0 else sampleVariance a.yes_prices

/-- Square of PriceAnalyzer.no_volatility. -/
def PriceAnalyzer.no_volatility_sq (a : PriceAnalyzer) : ℚ :=
  if a.no_prices.length < 2 then 0 else sampleVariance a.no_prices

/-- PriceAnalyzer.is_yes_cheap: with fewer than 5 samples, cheap iff the
price is below 0.45 with discount 0; otherwise, unless the average is 0,
discount = (avg - price) / avg and cheap iff the discount reaches
cheap_threshold and the yes volatility reaches volatility_threshold
(volatility compared via volCheck, the squared form of stdev >= threshold). -/
def PriceAnalyzer.is_yes_cheap (a : PriceAnalyzer) (current_yes : ℚ) : Bool × ℚ :=
  if a.yes_prices.length < 5 then (decide (current_yes < 45/100), 0)
  else if a.yes_average = 0 then (false, 0)
  else
    let discount := (a.yes_average - current_yes) / a.yes_average
    (decide (a.cheap_threshold ≤ discount) &&
      volCheck a.volatility_threshold a.yes_volatility_sq, discount)

/-- PriceAnalyzer.is_no_cheap: mirror image of is_yes_cheap. -/
def PriceAnalyzer.is_no_cheap (a : PriceAnalyzer) (current_no : ℚ) : Bool × ℚ :=
  if a.no_prices.length < 5 then (decide (current_no < 45/100), 0)
  else if a.no_average = 0 then (false, 0)
  else
    let discount := (a.no_average - current_no) / a.no_average
    (decide (a.cheap_threshold ≤ discount) &&
      volCheck a.volatility_threshold a.no_volatility_sq, discount)

/-- Which side an opportunity is on. -/
inductive OppSide where
  | YES
  | NO
deriving DecidableEq

/-- The dictionary returned by PriceAnalyzer.get_opportunity, as a record. -/
structure Opportunity where
  side : OppSide
  price : ℚ
  discount : ℚ
  confidence : ℚ
  pair_cost : ℚ
deriving DecidableEq

/-- PriceAnalyzer.get_opportunity: if yes_price + no_price reaches
max_pair_cost the call returns nothing and records no sample; otherwise the
sample is recorded and both sides are tested for cheapness on the updated
deques; when both are cheap the side with the strictly larger discount wins
(ties go to NO).  The returned pair carries the result and the state the
method leaves behind. -/
def PriceAnalyzer.get_opportunity (a : PriceAnalyzer) (yes_price no_price : ℚ) :
    Option Opportunity × PriceAnalyzer :=
  let pair_cost := yes_price + no_price
  if a.max_pair_cost ≤ pair_cost then (none, a)
  else
    let a1 := a.add_price yes_price no_price
    let yc := a1.is_yes_cheap yes_price
    let nc := a1.is_no_cheap no_price
    if yc.1 && nc.1 then
      if nc.2 < yc.2 then
        (some ⟨OppSide.YES, yes_price, yc.2,
          min (yc.2 / a1.cheap_threshold) 2, pair_cost⟩, a1)
      else
        (some ⟨OppSide.NO, no_price, nc.2,
          min (nc.2 / a1.cheap_threshold) 2, pair_cost⟩, a1)
    else if yc.1 then
      (some ⟨OppSide.YES, yes_price, yc.2,
        min (yc.2 / a1.cheap_threshold) 2, pair_cost⟩, a1)
    else if nc.1 then
      (some ⟨OppSide.NO, no_price, nc.2,
        min (nc.2 / a1.cheap_threshold) 2, pair_cost⟩, a1)
    else (none, a1)

/-- PriceAnalyzer.reset: clears the three deques, keeping the window size
and the thresholds. -/
def PriceAnalyzer.reset (a : PriceAnalyzer) : PriceAnalyzer :=
  { a with yes_prices := [], no_prices := [], pair_costs := [] }

/-- One call against a PriceAnalyzer, for stating invariants over call
sequences. -/
inductive AnalyzerOp where
  | addPrice (yes_price no_price : ℚ)
  | getOpp (yes_price no_price : ℚ)
  | reset

/-- Effect of one call on the analyzer state (the value returned by
get_opportunity is discarded). -/
def runOp (a : PriceAnalyzer) : AnalyzerOp → PriceAnalyzer
  | AnalyzerOp.addPrice y n => a.add_price y n
  | AnalyzerOp.getOpp y n => (a.get_opportunity y n).2
  | AnalyzerOp.reset => a.reset

/-- Effect of a sequence of calls, oldest first. -/
def runOps (a : PriceAnalyzer) : List AnalyzerOp → PriceAnalyzer
  | [] => a
  | op :: ops => runOps (runOp a op) ops

/-- Tag abstracting the formatted reason strings returned by the
RiskManager (the source interpolates current numbers into the messages;
only the identity of the message matters to the claims). -/
inductive RiskReason where
  | maxLoss
  | maxDrawdown
  | unhedgedTooHigh
  | ok
deriving DecidableEq

/-- Embedding of price_analyzer.RiskManager: the three configured limits
and the three mutable state fields. -/
structure RiskManager where
  max_loss_per_window : ℚ
  max_drawdown_pct : ℚ
  max_unhedged_exposure : ℚ
  initial_capital : ℚ
  current_exposure : ℚ
  unrealized_pnl : ℚ
deriving DecidableEq

/-- The constructor: limits as given (defaults 50, 0.10, 200), state
fields all 0. -/
def RiskManager.init (max_loss_per_window max_drawdown_pct
    max_unhedged_exposure : ℚ) : RiskManager :=
  ⟨max_loss_per_window, max_drawdown_pct, max_unhedged_exposure, 0, 0, 0⟩

/-- RiskManager.update_exposure: exposure is the total cost, the mark uses
the supplied prices, and unrealized pnl is mark minus cost. -/
def RiskManager.update_exposure (r : RiskManager)
    (yes_qty yes_cost no_qty no_cost yes_price no_price : ℚ) : RiskManager :=
  let total_cost := yes_cost + no_cost
  let current_value := yes_qty * yes_price + no_qty * no_price
  { r with current_exposure := total_cost
           unrealized_pnl := current_value - total_cost }

/-- RiskManager.should_stop_trading: first the absolute loss limit
(strictly below minus max_loss_per_window), then, when initial_capital is
positive, the drawdown limit (strictly above max_drawdown_pct). -/
def RiskManager.should_stop_trading (r : RiskManager) : Bool × RiskReason :=
  if r.unrealized_pnl < -r.max_loss_per_window then (true, RiskReason.maxLoss)
  else if 0 < r.initial_capital then
    (if r.max_drawdown_pct < -r.unrealized_pnl / r.initial_capital then
      (true, RiskReason.maxDrawdown)
    else (false, RiskReason.ok))
  else (false, RiskReason.ok)

/-- RiskManager.can_add_position: rejects when the absolute quantity
difference strictly exceeds max_unhedged_exposure; new_cost is accepted as
an argument but never read. -/
def RiskManager.can_add_position (r : RiskManager)
    (_new_cost current_yes_qty current_no_qty : ℚ) : Bool × RiskReason :=
  let qty_diff := |current_yes_qty - current_no_qty|
  if r.max_unhedged_exposure < qty_diff then (false, RiskReason.unhedgedTooHigh)
  else (true, RiskReason.ok)

/-- RiskManager.reset: clears exposure and pnl, keeping initial_capital
and the limits. -/
def RiskManager.reset (r : RiskManager) : RiskManager :=
  { r with current_exposure := 0, unrealized_pnl := 0 }

/-- The configuration fields the ArbitrageEngine copies from BotConfig. -/
structure BotConfig where
  max_pair_cost : ℚ
  max_trade_amount : ℚ
  max_total_exposure : ℚ
  min_profit_target : ℚ
deriving DecidableEq

/-- The side of a trade signal (arbitrage_engine.TradeSide). -/
inductive TradeSide where
  | YES
  | NO
  | NONE
deriving DecidableEq

/-- Embedding of arbitrage_engine.TradeSignal; the human-readable reason
string is elided. -/
structure TradeSignal where
  side : TradeSide
  price : ℚ
  quantity : ℚ
  projected_pair_cost : ℚ
deriving DecidableEq

/-- ArbitrageEngine._calculate_quantity: budget is the spare exposure
capped at max_trade_amount; quantity is budget over price, 0 when no
budget remains. -/
def calculate_quantity (cfg : BotConfig) (t : PositionTracker) (price : ℚ) : ℚ :=
  let remaining_budget := cfg.max_total_exposure - t.total_cost
  let trade_budget := min cfg.max_trade_amount remaining_budget
  if trade_budget ≤ 0 then 0
  else trade_budget / price

/-- ArbitrageEngine._is_profit_locked: locked profit has reached the
target and the positions are at least 80 percent balanced. -/
def is_profit_locked (cfg : BotConfig) (t : PositionTracker) : Bool :=
  decide (cfg.min_profit_target ≤ t.locked_profit) &&
    decide (8/10 ≤ t.balance_ratio)

/-- ArbitrageEngine._evaluate_yes_buy: no candidate when the quantity is
nonpositive, when the simulated pair cost exceeds max_pair_cost, or when a
NO position exists and the price reaches the implied ceiling
1 - avg_no. -/
def evaluate_yes_buy (cfg : BotConfig) (t : PositionTracker)
    (yes_price _no_price : ℚ) : Option TradeSignal :=
  let quantity := calculate_quantity cfg t yes_price
  if quantity ≤ 0 then none
  else
    let projected := (t.simulate_yes_trade quantity yes_price).1
    if cfg.max_pair_cost < projected then none
    else if 0 < t.no_position.quantity then
      (if 1 - t.no_position.average_price ≤ yes_price then none
       else some ⟨TradeSide.YES, yes_price, quantity, projected⟩)
    else some ⟨TradeSide.YES, yes_price, quantity, projected⟩

/-- ArbitrageEngine._evaluate_no_buy: mirror image of evaluate_yes_buy. -/
def evaluate_no_buy (cfg : BotConfig) (t : PositionTracker)
    (_yes_price no_price : ℚ) : Option TradeSignal :=
  let quantity := calculate_quantity cfg t no_price
  if quantity ≤ 0 then none
  else
    let projected := (t.simulate_no_trade quantity no_price).1
    if cfg.max_pair_cost < projected then none
    else if 0 < t.yes_position.quantity then
      (if 1 - t.yes_position.average_price ≤ no_price then none
       else some ⟨TradeSide.NO, no_price, quantity, projected⟩)
    else some ⟨TradeSide.NO, no_price, quantity, projected⟩

/-- ArbitrageEngine._prefer_balancing_side: with more YES buy NO, with
more NO buy YES, and when perfectly balanced take the cheaper price (ties
to NO). -/
def prefer_balancing_side (t : PositionTracker) (yes_signal no_signal : TradeSignal) :
    TradeSignal :=
  if 0 < t.quantity_imbalance then no_signal
  else if t.quantity_imbalance < 0 then yes_signal
  else if yes_signal.price < no_signal.price then yes_signal
  else no_signal

/-- ArbitrageEngine.analyze_opportunity: the exposure gate, the
profit-locked gate and the market pair-cost gate, then both sides are
evaluated and the candidates tie-broken by projected pair cost with a
0.001 margin, falling back to the balancing preference. -/
def analyze_opportunity (cfg : BotConfig) (t : PositionTracker)
    (yes_price no_price : ℚ) : Option TradeSignal :=
  if cfg.max_total_exposure ≤ t.total_cost then none
  else if is_profit_locked cfg t then none
  else if 1 ≤ yes_price + no_price then none
  else
    match evaluate_yes_buy cfg t yes_price no_price,
          evaluate_no_buy cfg t yes_price no_price with
    | some yes_signal, some no_signal =>
        if yes_signal.projected_pair_cost < no_signal.projected_pair_cost - 1/1000 then
          some yes_signal
        else if no_signal.projected_pair_cost < yes_signal.projected_pair_cost - 1/1000 then
          some no_signal
        else some (prefer_balancing_side t yes_signal no_signal)
    | some yes_signal, none => some yes_signal
    | none, some no_signal => some no_signal
    | none, none => none

/-- C1 counterexample: the record operation does not fail on a
non-positive quantity.  Recording a YES fill of quantity -1 at price 0.5
on the empty ledger changes the YES position (its quantity becomes -1),
whereas the claim requires an InvalidFill failure that leaves the position
unchanged. -/
theorem C1_counterexample :
    (PositionTracker.init.add_yes_trade (-1) (1/2)).yes_position.quantity ≠
      PositionTracker.init.yes_position.quantity := by
  norm_num [PositionTracker.add_yes_trade, Position.add_trade,
    PositionTracker.init, Position.init]

/-- C1 (amended): the record operations perform no validation and never
fail: for every quantity and price (non-positive included), add_yes_trade
and add_no_trade append the fill to that side and increment that side's
quantity by the fill quantity and its total_cost by quantity * price,
leaving the other side untouched. -/
theorem C1_record_is_unconditional (t : PositionTracker) (q p : ℚ) :
    ((t.add_yes_trade q p).yes_position.quantity = t.yes_position.quantity + q ∧
     (t.add_yes_trade q p).yes_position.total_cost = t.yes_position.total_cost + q * p ∧
     (t.add_yes_trade q p).yes_position.trades =
       t.yes_position.trades ++ [⟨"YES", q, p, q * p⟩] ∧
     (t.add_yes_trade q p).no_position = t.no_position) ∧
    ((t.add_no_trade q p).no_position.quantity = t.no_position.quantity + q ∧
     (t.add_no_trade q p).no_position.total_cost = t.no_position.total_cost + q * p ∧
     (t.add_no_trade q p).no_position.trades =
       t.no_position.trades ++ [⟨"NO", q, p, q * p⟩] ∧
     (t.add_no_trade q p).yes_position = t.yes_position) :=
  ⟨⟨rfl, rfl, rfl, rfl⟩, ⟨rfl, rfl, rfl, rfl⟩⟩

/-- C2: on every ledger state (reachable ones included), locked_profit
equals min_quantity * (1 - pair_cost) exactly; in particular it is 0 when
min_quantity is 0. -/
theorem C2_locked_profit_formula (t : PositionTracker) :
    t.locked_profit = t.min_quantity * (1 - t.pair_cost) := by
  by_cases h : t.min_quantity = 0
  · simp [PositionTracker.locked_profit, h]
  · simp only [PositionTracker.locked_profit, PositionTracker.pair_cost, if_neg h]
    ring

/-- C3: simulate_yes_trade and simulate_no_trade are pure: the state they
leave behind is the receiver itself (both sides' quantity, total_cost and
trade lists unchanged), and a repeated call on that state returns the same
pair-cost value. -/
theorem C3_simulate_pure (t : PositionTracker) (q p : ℚ) :
    (t.simulate_yes_trade q p).2 = t ∧
    (t.simulate_no_trade q p).2 = t ∧
    ((t.simulate_yes_trade q p).2.simulate_yes_trade q p).1 =
      (t.simulate_yes_trade q p).1 ∧
    ((t.simulate_no_trade q p).2.simulate_no_trade q p).1 =
      (t.simulate_no_trade q p).1 ∧
    (t.simulate_yes_trade q p).2.yes_position.quantity = t.yes_position.quantity ∧
    (t.simulate_yes_trade q p).2.yes_position.total_cost = t.yes_position.total_cost ∧
    (t.simulate_yes_trade q p).2.yes_position.trades = t.yes_position.trades ∧
    (t.simulate_no_trade q p).2.no_position.quantity = t.no_position.quantity ∧
    (t.simulate_no_trade q p).2.no_position.total_cost = t.no_position.total_cost ∧
    (t.simulate_no_trade q p).2.no_position.trades = t.no_position.trades :=
  ⟨rfl, rfl, rfl, rfl, rfl, rfl, rfl, rfl, rfl, rfl⟩

/-- C4: whenever total_cost has reached max_total_exposure,
analyze_opportunity returns none for all price inputs. -/
theorem C4_exposure_gate (cfg : BotConfig) (t : PositionTracker)
    (yes_price no_price : ℚ) (h : cfg.max_total_exposure ≤ t.total_cost) :
    analyze_opportunity cfg t yes_price no_price = none := by
  unfold analyze_opportunity
  rw [if_pos h]

/-- Concrete instance of C4: with max_total_exposure 0 and the empty
ledger (total_cost 0), the engine returns none. -/
theorem C4_exposure_gate_witness :
    analyze_opportunity ⟨99/100, 10, 0, 0⟩ PositionTracker.init 1 1 = none :=
  C4_exposure_gate ⟨99/100, 10, 0, 0⟩ PositionTracker.init 1 1
    (by norm_num [PositionTracker.total_cost, PositionTracker.init, Position.init])

/-- Appending to a bounded deque of capacity w yields length
min (previous length + 1) w. -/
theorem dequeAppend_length (w : ℕ) (xs : List ℚ) (x : ℚ) :
    (dequeAppend w xs x).length = min (xs.length + 1) w := by
  unfold dequeAppend
  split
  · simp only [List.length_append, List.length_singleton]
    omega
  · simp only [List.length_drop, List.length_append, List.length_singleton]
    omega

/-- C5: the guard precedes the observation: when yes_price + no_price
reaches max_pair_cost (0.99 by default), get_opportunity returns none and
leaves the analyzer (hence every sample deque) unchanged; below the guard
it leaves exactly the state produced by recording the one sample, whose
deques have length min (previous length + 1) window_size. -/
theorem C5_guard_precedes_observation (a : PriceAnalyzer) (yes_price no_price : ℚ) :
    (a.max_pair_cost ≤ yes_price + no_price →
      (a.get_opportunity yes_price no_price).1 = none ∧
      (a.get_opportunity yes_price no_price).2 = a) ∧
    (yes_price + no_price < a.max_pair_cost →
      (a.get_opportunity yes_price no_price).2 = a.add_price yes_price no_price ∧
      (a.add_price yes_price no_price).yes_prices.length =
        min (a.yes_prices.length + 1) a.window_size ∧
      (a.add_price yes_price no_price).no_prices.length =
        min (a.no_prices.length + 1) a.window_size ∧
      (a.add_price yes_price no_price).pair_costs.length =
        min (a.pair_costs.length + 1) a.window_size) := by
  constructor
  · intro h
    unfold PriceAnalyzer.get_opportunity
    rw [if_pos h]
    exact ⟨rfl, rfl⟩
  · intro h
    refine ⟨?_, dequeAppend_length _ _ _, dequeAppend_length _ _ _,
      dequeAppend_length _ _ _⟩
    unfold PriceAnalyzer.get_opportunity
    rw [if_neg (not_le.mpr h)]
    dsimp only
    split
    · split <;> rfl
    · split
      · rfl
      · split <;> rfl

/-- Concrete instance of C5: at the guard (0.5 + 0.5 = 1 >= 0.99) the
fresh analyzer returns none, and below the guard (0.1 + 0.2) the state
after the call is exactly the state after recording the sample. -/
theorem C5_guard_witness :
    ((PriceAnalyzer.init 50).get_opportunity (1/2) (1/2)).1 = none ∧
    ((PriceAnalyzer.init 50).get_opportunity (1/10) (2/10)).2 =
      (PriceAnalyzer.init 50).add_price (1/10) (2/10) :=
  ⟨((C5_guard_precedes_observation (PriceAnalyzer.init 50) (1/2) (1/2)).1
      (by norm_num [PriceAnalyzer.init])).1,
   ((C5_guard_precedes_observation (PriceAnalyzer.init 50) (1/10) (2/10)).2
      (by norm_num [PriceAnalyzer.init])).1⟩

/-- C6: with fewer than 5 retained samples on a side (4 in particular),
is_yes_cheap / is_no_cheap report cheap iff the price is below 0.45 with
discount 0; with at least 5 samples (5 in particular) they report
discount = (avg - price) / avg and cheap iff the discount reaches
cheap_threshold and the volatility reaches volatility_threshold (squared
comparison volCheck; the hypothesis 0 < cheap_threshold holds for the
default 0.15 and makes the avg = 0 guard of the source agree with the
formula, whose rational value at avg = 0 is 0). -/
theorem C6_is_cheap_boundary (a : PriceAnalyzer) (price : ℚ)
    (hct : 0 < a.cheap_threshold) :
    (a.yes_prices.length < 5 →
      a.is_yes_cheap price = (decide (price < 45/100), 0)) ∧
    (5 ≤ a.yes_prices.length →
      a.is_yes_cheap price =
        (decide (a.cheap_threshold ≤ (a.yes_average - price) / a.yes_average) &&
           volCheck a.volatility_threshold a.yes_volatility_sq,
         (a.yes_average - price) / a.yes_average)) ∧
    (a.no_prices.length < 5 →
      a.is_no_cheap price = (decide (price < 45/100), 0)) ∧
    (5 ≤ a.no_prices.length →
      a.is_no_cheap price =
        (decide (a.cheap_threshold ≤ (a.no_average - price) / a.no_average) &&
           volCheck a.volatility_threshold a.no_volatility_sq,
         (a.no_average - price) / a.no_average)) := by
  refine ⟨fun h => ?_, fun h => ?_, fun h => ?_, fun h => ?_⟩
  · unfold PriceAnalyzer.is_yes_cheap
    rw [if_pos h]
  · unfold PriceAnalyzer.is_yes_cheap
    rw [if_neg (not_lt.mpr h)]
    by_cases havg : a.yes_average = 0
    · rw [if_pos havg, havg]
      simp [div_zero, hct.not_le]
    · rw [if_neg havg]
  · unfold PriceAnalyzer.is_no_cheap
    rw [if_pos h]
  · unfold PriceAnalyzer.is_no_cheap
    rw [if_neg (not_lt.mpr h)]
    by_cases havg : a.no_average = 0
    · rw [if_pos havg, havg]
      simp [div_zero, hct.not_le]
    · rw [if_neg havg]

/-- Concrete instance of C6: the fresh analyzer has 0 < 5 samples, so a
price of 0.10 is cheap by the absolute 0.45 rule, with discount 0. -/
theorem C6_is_cheap_witness :
    (PriceAnalyzer.init 50).is_yes_cheap (1/10) = (true, 0) := by
  have h := (C6_is_cheap_boundary (PriceAnalyzer.init 50) (1/10)
    (by norm_num [PriceAnalyzer.init])).1 (by simp [PriceAnalyzer.init])
  rw [h]
  norm_num

/-- C7: should_stop_trading reports the max-loss reason iff the
unrealized pnl is strictly below minus max_loss_per_window; failing that
(the max-loss check comes first) it reports the drawdown reason iff the
initial capital is positive and the drawdown strictly exceeds
max_drawdown_pct; when neither condition trips it reports no stop. -/
theorem C7_stop_trading_characterisation (r : RiskManager) :
    (r.should_stop_trading = (true, RiskReason.maxLoss) ↔
      r.unrealized_pnl < -r.max_loss_per_window) ∧
    (r.should_stop_trading = (true, RiskReason.maxDrawdown) ↔
      (¬ r.unrealized_pnl < -r.max_loss_per_window ∧ 0 < r.initial_capital ∧
        r.max_drawdown_pct < -r.unrealized_pnl / r.initial_capital)) ∧
    (r.should_stop_trading = (false, RiskReason.ok) ↔
      (¬ r.unrealized_pnl < -r.max_loss_per_window ∧
        ¬ (0 < r.initial_capital ∧
           r.max_drawdown_pct < -r.unrealized_pnl / r.initial_capital))) := by
  unfold RiskManager.should_stop_trading
  by_cases h1 : r.unrealized_pnl < -r.max_loss_per_window
  · simp [h1]
  · by_cases h2 : 0 < r.initial_capital
    · by_cases h3 : r.max_drawdown_pct < -r.unrealized_pnl / r.initial_capital
      · simp [h1, h2, h3]
      · simp [h1, h2, h3]
    · simp [h1, h2]

/-- C8: can_add_position rejects iff the absolute difference of the two
quantities strictly exceeds max_unhedged_exposure, accepts otherwise, and
its result never depends on the new_cost argument. -/
theorem C8_can_add_position_characterisation (r : RiskManager)
    (new_cost other_cost yes_qty no_qty : ℚ) :
    (r.can_add_position new_cost yes_qty no_qty = (false, RiskReason.unhedgedTooHigh) ↔
      r.max_unhedged_exposure < |yes_qty - no_qty|) ∧
    (r.can_add_position new_cost yes_qty no_qty = (true, RiskReason.ok) ↔
      ¬ r.max_unhedged_exposure < |yes_qty - no_qty|) ∧
    r.can_add_position new_cost yes_qty no_qty =
      r.can_add_position other_cost yes_qty no_qty := by
  unfold RiskManager.can_add_position
  by_cases h : r.max_unhedged_exposure < |yes_qty - no_qty|
  · simp [h]
  · simp [h]

/-- C9: on the empty ledger with max_pair_cost 0.99, max_trade_amount 10
and max_total_exposure 1000 (any min_profit_target: with both sides empty
the balance ratio is 0, so profit is never considered locked), the quotes
yes 0.40 / no 0.55 produce a YES signal of quantity 25 with projected pair
cost 0.40; the NO candidate exists with projected pair cost 0.55 and loses
the tie-break because 0.40 is below 0.55 by more than the 0.001 margin. -/
theorem C9_scenario_buy_yes (min_profit_target : ℚ) :
    analyze_opportunity ⟨99/100, 10, 1000, min_profit_target⟩ PositionTracker.init
      (2/5) (11/20) = some ⟨TradeSide.YES, 2/5, 25, 2/5⟩ ∧
    evaluate_no_buy ⟨99/100, 10, 1000, min_profit_target⟩ PositionTracker.init
      (2/5) (11/20) = some ⟨TradeSide.NO, 11/20, 200/11, 11/20⟩ ∧
    (2:ℚ)/5 < 11/20 - 1/1000 := by
  have hno : evaluate_no_buy ⟨99/100, 10, 1000, min_profit_target⟩
      PositionTracker.init (2/5) (11/20) =
      some ⟨TradeSide.NO, 11/20, 200/11, 11/20⟩ := by
    norm_num [evaluate_no_buy, calculate_quantity, PositionTracker.init,
      Position.init, PositionTracker.total_cost, PositionTracker.simulate_no_trade,
      Position.average_price, min_def]
  have hyes : evaluate_yes_buy ⟨99/100, 10, 1000, min_profit_target⟩
      PositionTracker.init (2/5) (11/20) =
      some ⟨TradeSide.YES, 2/5, 25, 2/5⟩ := by
    norm_num [evaluate_yes_buy, calculate_quantity, PositionTracker.init,
      Position.init, PositionTracker.total_cost, PositionTracker.simulate_yes_trade,
      Position.average_price, min_def]
  refine ⟨?_, hno, by norm_num⟩
  unfold analyze_opportunity
  rw [hno, hyes]
  norm_num [is_profit_locked, PositionTracker.balance_ratio, PositionTracker.init,
    Position.init, PositionTracker.total_cost, PositionTracker.locked_profit,
    PositionTracker.min_quantity]

/-- The state left behind by get_opportunity: unchanged at the guard,
otherwise the state after recording the sample. -/
theorem get_opportunity_snd (a : PriceAnalyzer) (yes_price no_price : ℚ) :
    (a.get_opportunity yes_price no_price).2 =
      if a.max_pair_cost ≤ yes_price + no_price then a
      else a.add_price yes_price no_price := by
  unfold PriceAnalyzer.get_opportunity
  by_cases h : a.max_pair_cost ≤ yes_price + no_price
  · rw [if_pos h, if_pos h]
  · rw [if_neg h, if_neg h]
    dsimp only
    split
    · split <;> rfl
    · split
      · rfl
      · split <;> rfl

/-- Bounded-deque append commutes with pointwise addition of two
same-length deques. -/
theorem zipWith_dequeAppend (w : ℕ) (xs ys : List ℚ) (x y : ℚ)
    (h : xs.length = ys.length) :
    dequeAppend w (List.zipWith (fun a b => a + b) xs ys) (x + y) =
      List.zipWith (fun a b => a + b) (dequeAppend w xs x) (dequeAppend w ys y) := by
  have hzl : (List.zipWith (fun a b => a + b) xs ys).length = xs.length := by
    rw [List.length_zipWith, h, Nat.min_self]
  have happ : List.zipWith (fun a b => a + b) (xs ++ [x]) (ys ++ [y]) =
      List.zipWith (fun a b => a + b) xs ys ++ [x + y] := by
    rw [List.zipWith_append _ _ _ _ _ h]
    rfl
  unfold dequeAppend
  by_cases hc : xs.length + 1 ≤ w
  · rw [if_pos (by rw [hzl]; exact hc), if_pos hc, if_pos (by rw [← h]; exact hc),
      happ]
  · rw [if_neg (by rw [hzl]; exact hc), if_neg hc, if_neg (by rw [← h]; exact hc),
      hzl, ← h, ← List.drop_zipWith, happ]

/-- The alignment invariant on the analyzer sample deques: the yes and no
deques have equal length, bounded by the window size, and the pair-cost
deque is their pointwise sum. -/
def SampleInvZ (a : PriceAnalyzer) : Prop :=
  a.yes_prices.length = a.no_prices.length ∧
  a.yes_prices.length ≤ a.window_size ∧
  a.pair_costs = List.zipWith (fun y n => y + n) a.yes_prices a.no_prices

/-- A fresh analyzer satisfies the alignment invariant. -/
theorem SampleInvZ_init (w : ℕ) : SampleInvZ (PriceAnalyzer.init w) :=
  ⟨rfl, Nat.zero_le _, rfl⟩

/-- add_price preserves the alignment invariant. -/
theorem SampleInvZ_add_price (a : PriceAnalyzer) (y n : ℚ) (h : SampleInvZ a) :
    SampleInvZ (a.add_price y n) := by
  obtain ⟨h1, h2, h3⟩ := h
  refine ⟨?_, ?_, ?_⟩
  · show (dequeAppend a.window_size a.yes_prices y).length =
      (dequeAppend a.window_size a.no_prices n).length
    rw [dequeAppend_length, dequeAppend_length, h1]
  · show (dequeAppend a.window_size a.yes_prices y).length ≤ a.window_size
    rw [dequeAppend_length]
    exact min_le_right _ _
  · show dequeAppend a.window_size a.pair_costs (y + n) =
      List.zipWith (fun a b => a + b) (dequeAppend a.window_size a.yes_prices y)
        (dequeAppend a.window_size a.no_prices n)
    rw [h3, zipWith_dequeAppend _ _ _ _ _ h1]

/-- reset preserves the alignment invariant. -/
theorem SampleInvZ_reset (a : PriceAnalyzer) : SampleInvZ a.reset :=
  ⟨rfl, Nat.zero_le _, rfl⟩

/-- Every single analyzer call preserves the alignment invariant. -/
theorem SampleInvZ_runOp (a : PriceAnalyzer) (op : AnalyzerOp) (h : SampleInvZ a) :
    SampleInvZ (runOp a op) := by
  cases op with
  | addPrice y n => exact SampleInvZ_add_price a y n h
  | getOpp y n =>
      show SampleInvZ (a.get_opportunity y n).2
      rw [get_opportunity_snd]
      split
      · exact h
      · exact SampleInvZ_add_price a y n h
  | reset => exact SampleInvZ_reset a

/-- Every sequence of analyzer calls preserves the alignment invariant. -/
theorem SampleInvZ_runOps (a : PriceAnalyzer) (ops : List AnalyzerOp)
    (h : SampleInvZ a) : SampleInvZ (runOps a ops) := by
  induction ops generalizing a with
  | nil => exact h
  | cons op ops ih => exact ih _ (SampleInvZ_runOp a op h)

/-- No analyzer call changes the window size. -/
theorem runOp_window_size (a : PriceAnalyzer) (op : AnalyzerOp) :
    (runOp a op).window_size = a.window_size := by
  cases op with
  | addPrice y n => rfl
  | getOpp y n =>
      show (a.get_opportunity y n).2.window_size = a.window_size
      rw [get_opportunity_snd]
      split <;> rfl
  | reset => rfl

/-- No sequence of analyzer calls changes the window size. -/
theorem runOps_window_size (a : PriceAnalyzer) (ops : List AnalyzerOp) :
    (runOps a ops).window_size = a.window_size := by
  induction ops generalizing a with
  | nil => rfl
  | cons op ops ih =>
      show (runOps (runOp a op) ops).window_size = a.window_size
      rw [ih, runOp_window_size]

/-- Reading the pointwise sum of two same-length lists at any index (with
default 0 beyond the end). -/
theorem zipWith_add_getD (xs ys : List ℚ) (h : xs.length = ys.length) (i : ℕ) :
    (List.zipWith (fun a b => a + b) xs ys).getD i 0 =
      xs.getD i 0 + ys.getD i 0 := by
  induction xs generalizing ys i with
  | nil =>
      cases ys with
      | nil => simp
      | cons b bs => simp at h
  | cons a as ih =>
      cases ys with
      | nil => simp at h
      | cons b bs =>
          cases i with
          | zero => simp
          | succ j =>
              simp only [List.zipWith_cons_cons, List.getD_cons_succ]
              exact ih bs (by simpa using h) j

/-- C10: after any sequence of add_price, get_opportunity and reset calls
on a fresh analyzer, the three sample deques have equal length, that
length never exceeds the window size, and every retained pair-cost sample
is the sum of the yes and no samples at the same index. -/
theorem C10_sample_sets_aligned (w : ℕ) (ops : List AnalyzerOp) :
    (runOps (PriceAnalyzer.init w) ops).yes_prices.length =
      (runOps (PriceAnalyzer.init w) ops).no_prices.length ∧
    (runOps (PriceAnalyzer.init w) ops).pair_costs.length =
      (runOps (PriceAnalyzer.init w) ops).yes_prices.length ∧
    (runOps (PriceAnalyzer.init w) ops).yes_prices.length ≤ w ∧
    ∀ i : ℕ,
      (runOps (PriceAnalyzer.init w) ops).pair_costs.getD i 0 =
        (runOps (PriceAnalyzer.init w) ops).yes_prices.getD i 0 +
        (runOps (PriceAnalyzer.init w) ops).no_prices.getD i 0 := by
  obtain ⟨h1, h2, h3⟩ := SampleInvZ_runOps (PriceAnalyzer.init w) ops (SampleInvZ_init w)
  refine ⟨h1, ?_, ?_, fun i => ?_⟩
  · rw [h3, List.length_zipWith, h1, Nat.min_self]
  · have hw := runOps_window_size (PriceAnalyzer.init w) ops
    rw [hw] at h2
    exact h2
  · rw [h3]
    exact zipWith_add_getD _ _ h1 i

end Gabagool
